import Mathlib

/-!
Shallow embedding of the KonomiMegaCube core
(`src/api/cube/core/cube_manager.py` and
`src/services/standalone/cube_server.py`).

Conventions of the embedding:
* Python exceptions are made explicit: a step that may raise returns a
  `Bool` "raised" flag or an `Except`.  Bodies whose only failure source
  is abstract (the comment-only try body of `CubeNode.initialize`, the
  `pass` body of `check_dependencies`, a websocket send) are modelled
  with an explicit failure oracle (`Nat → Bool` / `Bool`) so that the
  error-handling control flow of the source can be examined; the oracle
  at `false` is the behaviour of the code as written.
* `datetime.utcnow()` is an abstract clock value `now : Nat` supplied by
  the caller at the point the source reads the clock.
* `asyncio.Queue` is a FIFO list: `put` appends at the tail, `get`
  takes the head.  The dict `active_nodes` is an association list keyed
  by node id.
-/

namespace KCube

/-- A node of the cube (`CubeNode.__init__`, cube_manager.py:117-123).
`config` carries no information relevant to the claims and is omitted. -/
structure CubeNode where
  node_id : Nat
  name : String
  role : String
  dependencies : List Nat
  status : String
deriving DecidableEq

/-- `CubeNode.__init__`: dependencies start empty, status starts
`"initializing"`. -/
def CubeNode.mk_node (node_id : Nat) (name role : String) : CubeNode :=
  ⟨node_id, name, role, [], "initializing"⟩

/-- `CubeNode.initialize` (cube_manager.py:125-134).  The try body sets
`status = "active"` and logs; `body_fails` models an exception raised by
the try body, in which case the except branch sets `status = "error"`
and re-raises (the returned `Bool` is the "raised" flag).  In the code
as written the try body is a plain assignment plus a log call and cannot
raise, so every actual execution is `init_node n false`. -/
def CubeNode.init_node (n : CubeNode) (body_fails : Bool) : CubeNode × Bool :=
  if body_fails then (⟨n.node_id, n.name, n.role, n.dependencies, "error"⟩, true)
  else (⟨n.node_id, n.name, n.role, n.dependencies, "active"⟩, false)

/-- `CubeNode.check_dependencies` (cube_manager.py:148-151): the body is
`pass`, a no-op on the node. -/
def CubeNode.check_dependencies (n : CubeNode) : CubeNode := n

/-- A role-handler invocation recorded by `process_training_data`.
Modelled from the spec: the handler methods `_handle_training_data` and
`_handle_monitoring_data` that the dispatch table names are not defined
anywhere under src/; per the spec role-specific processing is a
pluggable capability outside the core, so an invocation is recorded as
an opaque event carrying the payload and no node state is changed. -/
inductive HandlerCall where
  | training (data : String)
  | monitoring (data : String)
deriving DecidableEq

/-- `CubeNode.process_training_data` (cube_manager.py:136-146):
role-dispatched with branches only for `"TRAINING"` and `"MONITORING"`;
any other role falls through the if/elif chain and nothing happens.
The surrounding try/except means no exception escapes in any case.
Returns the node (unchanged) and the list of handler invocations. -/
def CubeNode.process_training_data (n : CubeNode) (data : String) :
    CubeNode × List HandlerCall :=
  if n.role == "TRAINING" then (n, [HandlerCall.training data])
  else if n.role == "MONITORING" then (n, [HandlerCall.monitoring data])
  else (n, [])

/-- A status snapshot as returned by `CubeNode.get_status`
(cube_manager.py:153-162). -/
structure NodeStatus where
  node_id : Nat
  name : String
  role : String
  status : String
  dependencies : List Nat
  timestamp : Nat
deriving DecidableEq

/-- `CubeNode.get_status`: a pure read of identity, status and
dependencies, stamped with the current clock value. -/
def CubeNode.get_status (n : CubeNode) (now : Nat) : NodeStatus :=
  ⟨n.node_id, n.name, n.role, n.status, n.dependencies, now⟩

/-- The fixed role table of `CubeManager._initialize_nodes`
(cube_manager.py:50-60), in document order. -/
def node_roles : List (String × String) :=
  [("vertex_1", "SCADA"), ("vertex_2", "HMI"), ("vertex_3", "PLC"),
   ("vertex_4", "HISTORIAN"), ("vertex_5", "GATEWAY"),
   ("vertex_6", "LOAD_BALANCER"), ("vertex_7", "TRAINING"),
   ("vertex_8", "MONITORING"), ("central", "COORDINATOR")]

/-- The for-loop of `CubeManager._initialize_nodes`
(cube_manager.py:62-70), starting from node id `i` over the remaining
role table.  For each entry a node is created and `initialize` is
awaited; the loop body has no try/except, so when `initialize` raises
(oracle `fails i`) the exception propagates: the failing node is never
stored and no later entry is visited.  Nodes stored before the failure
remain stored.  Returns the association list `active_nodes` built and
the "raised" flag of the whole call. -/
def init_nodes_from (fails : Nat → Bool) :
    Nat → List (String × String) → List (Nat × CubeNode) × Bool
  | _, [] => ([], false)
  | i, (name, role) :: rest =>
    let r := (CubeNode.mk_node i name role).init_node (fails i)
    if r.2 then ([], true)
    else
      let t := init_nodes_from fails (i + 1) rest
      ((i, r.1) :: t.1, t.2)

/-- `CubeManager._initialize_nodes`: `enumerate(node_roles, 1)` runs the
loop with node ids 1..9 over the fixed role table. -/
def init_nodes (fails : Nat → Bool) : List (Nat × CubeNode) × Bool :=
  init_nodes_from fails 1 node_roles

/-- `self.active_nodes.get(node_id)` (Python dict lookup). -/
def get_node (active : List (Nat × CubeNode)) (node_id : Nat) : Option CubeNode :=
  List.lookup node_id active

/-- A training-queue item as built by `add_training_data`
(cube_manager.py:101-105): target node id, opaque payload, and the
UTC timestamp read at enqueue time. -/
structure TrainingTask where
  node_id : Nat
  data : String
  timestamp : Nat
deriving DecidableEq

/-- `CubeManager.add_training_data` (cube_manager.py:99-105): puts the
item at the tail of the FIFO queue, stamping it with the current clock.
The method has no validation and no failure path (`asyncio.Queue.put`
on an unbounded queue never raises), hence always `Except.ok`.  The
`active` argument is the manager's node map, passed to show that the
method never consults it. -/
def add_training_data (active : List (Nat × CubeNode))
    (queue : List TrainingTask) (node_id : Nat) (data : String) (now : Nat) :
    Except String (List TrainingTask) :=
  let _ := active
  Except.ok (queue ++ [⟨node_id, data, now⟩])

/-- The consumer loop `CubeManager._process_training_queue`
(cube_manager.py:72-87) draining a queue: items are taken in FIFO
order; for each, the target node is looked up and
`process_training_data` is invoked only when the node exists; an absent
target drops the item (`task_done`, never re-queued).  Returns the
sequence of `process_training_data` invocations `(node_id, data)` in
invocation order. -/
def process_training_queue (active : List (Nat × CubeNode)) :
    List TrainingTask → List (Nat × String)
  | [] => []
  | t :: rest =>
    match get_node active t.node_id with
    | some _ => (t.node_id, t.data) :: process_training_queue active rest
    | none => process_training_queue active rest

/-- A sequence of `add_training_data` calls, one per submission
`(node_id, data, now)`, starting from the queue `queue`.  (`put` never
fails, so the error branch is dead; it is kept to mirror the `Except`
result of `add_training_data`.) -/
def submit_all (active : List (Nat × CubeNode)) (queue : List TrainingTask) :
    List (Nat × String × Nat) → List TrainingTask
  | [] => queue
  | (node_id, data, now) :: rest =>
    match add_training_data active queue node_id data now with
    | Except.ok q2 => submit_all active q2 rest
    | Except.error _ => queue

/-- `CubeManager.get_node_status` (cube_manager.py:107-112): dict `get`
then `if not node: raise ValueError(...)`; a present `CubeNode` object
is always truthy, so the error fires exactly when the id is absent. -/
def get_node_status (active : List (Nat × CubeNode)) (node_id : Nat)
    (now : Nat) : Except String NodeStatus :=
  match get_node active node_id with
  | none => Except.error ("Node " ++ toString node_id ++ " not found")
  | some n => Except.ok (n.get_status now)

/-- One sweep of the for-loop inside `CubeManager._monitor_dependencies`
(cube_manager.py:91-97) over the node ids currently known, with a
failure oracle for `check_dependencies` (whose `pass` body is abstract
per the source).  The try/except sits OUTSIDE the for-loop: when a
refresh raises, the exception aborts the remaining iterations of the
sweep and is caught at the sweep boundary.  Returns the node ids whose
refresh was invoked this sweep, and whether an exception was caught. -/
def monitor_sweep (fails : Nat → Bool) : List Nat → List Nat × Bool
  | [] => ([], false)
  | n :: rest =>
    if fails n then ([n], true)
    else
      let r := monitor_sweep fails rest
      (n :: r.1, r.2)

/-- The `while True` of `_monitor_dependencies`, unrolled for `k`
sweeps (`fails s n` says whether node `n`'s refresh raises during sweep
`s`).  Because every exception is caught at the sweep boundary, the
loop always proceeds to the next sweep.  Returns the per-sweep lists of
refreshed node ids. -/
def monitor_loop (fails : Nat → Nat → Bool) (nodes : List Nat) :
    Nat → List (List Nat)
  | 0 => []
  | Nat.succ k =>
    (monitor_sweep (fails 0) nodes).1 ::
      monitor_loop (fun s => fails (s + 1)) nodes k

/-- `StandaloneCubeServer.broadcast_message` (cube_server.py:186-191):
iterates the registered connections; each send is wrapped in its own
try/except (`send_fails c` = that client's send raises), which only
logs.  The loop body never removes a connection.  Returns the clients
the message was delivered to (in iteration order) and the connection
set after the call. -/
def broadcast_message : List Nat → (Nat → Bool) → List Nat × List Nat
  | [], _ => ([], [])
  | c :: rest, send_fails =>
    let r := broadcast_message rest send_fails
    if send_fails c then (r.1, c :: r.2) else (c :: r.1, c :: r.2)

/-- A JSON-ish value, enough to model Python truthiness of the fields
the server reads. -/
inductive JVal where
  | null
  | bool (b : Bool)
  | num (n : Int)
  | str (s : String)
deriving DecidableEq

/-- Python truthiness of a `JVal` (`if peer_id:`). -/
def JVal.truthy : JVal → Bool
  | .null => false
  | .bool b => b
  | .num n => n != 0
  | .str s => s != ""

/-- `data.get(key)` on a JSON object modelled as an association list. -/
def jget (data : List (String × JVal)) (key : String) : Option JVal :=
  List.lookup key data

/-- Truthiness of an optional field: `data.get(k)` returns `None` when
the key is absent and `None` is falsy. -/
def opt_truthy : Option JVal → Bool
  | some v => v.truthy
  | none => false

/-- Outbound websocket messages of the standalone server.  Modelled
from the spec: the `create_cube` and `list_cubes` branches delegate to
`sim.services.cube.manager.CubeManager`, a module not present under
src/; their replies are abstracted to opaque markers, which is all the
peer-discovery claims need. -/
inductive OutMsg where
  | peer_ack (instance_id : String)
  | cube_created_reply
  | cube_list_reply
deriving DecidableEq

/-- `StandaloneCubeServer.handle_peer_discovery` (cube_server.py:178-184):
reads `data.get("peer_id")` and replies `peer_ack` with this instance's
fixed id ONLY under `if peer_id:` — i.e. only when the field is present
and truthy.  Returns the list of messages sent. -/
def handle_peer_discovery (instance_id : String)
    (data : List (String × JVal)) : List OutMsg :=
  match jget data "peer_id" with
  | some v => if v.truthy then [OutMsg.peer_ack instance_id] else []
  | none => []

/-- `StandaloneCubeServer.process_message` (cube_server.py:148-176):
dispatch on `data.get("type")`; the `peer_discovery` branch calls
`handle_peer_discovery`; an unrecognized or absent type falls through
with no reply. -/
def process_message (instance_id : String)
    (data : List (String × JVal)) : List OutMsg :=
  match jget data "type" with
  | some (JVal.str t) =>
    if t == "create_cube" then [OutMsg.cube_created_reply]
    else if t == "list_cubes" then [OutMsg.cube_list_reply]
    else if t == "peer_discovery" then handle_peer_discovery instance_id data
    else []
  | _ => []

/-! ## Helper lemmas -/

/-- Closed form of the queue consumer: invocations are exactly the
submitted items whose target exists, in submission order. -/
theorem process_training_queue_eq (active : List (Nat × CubeNode)) :
    ∀ tasks : List TrainingTask,
      process_training_queue active tasks =
        (tasks.filter (fun t => (get_node active t.node_id).isSome)).map
          (fun t => (t.node_id, t.data))
  | [] => rfl
  | t :: rest => by
    cases h : get_node active t.node_id with
    | none =>
      simp [process_training_queue, h, List.filter,
        process_training_queue_eq active rest]
    | some n =>
      simp [process_training_queue, h, List.filter,
        process_training_queue_eq active rest]

/-- Closed form of one monitor sweep: the refreshed ids are the nodes
up to and including the first failing one, and an exception is caught
iff some node of the sweep fails. -/
theorem monitor_sweep_eq (fails : Nat → Bool) :
    ∀ nodes : List Nat,
      monitor_sweep fails nodes =
        (nodes.takeWhile (fun n => ! fails n) ++
          (nodes.dropWhile (fun n => ! fails n)).take 1,
         nodes.any fails)
  | [] => rfl
  | n :: rest => by
    cases h : fails n with
    | false =>
      simp [monitor_sweep, h, List.takeWhile, List.dropWhile, List.any,
        monitor_sweep_eq fails rest]
    | true =>
      simp [monitor_sweep, h, List.takeWhile, List.dropWhile, List.any]

/-- The monitor loop performs one sweep per interval, whatever the
failures: a sweep-level exception never terminates the loop. -/
theorem monitor_loop_length (nodes : List Nat) :
    ∀ (k : Nat) (fails : Nat → Nat → Bool),
      (monitor_loop fails nodes k).length = k
  | 0, _ => rfl
  | Nat.succ k, fails => by
    simp [monitor_loop, monitor_loop_length nodes k]

/-- The node map built by the initialization loop is a prefix of the
map the loop builds when no initialization fails: nodes are created in
the declared order and a failure cuts the run short. -/
theorem init_from_take (fails : Nat → Bool) :
    ∀ (roles : List (String × String)) (i : Nat),
      (init_nodes_from fails i roles).1 =
        (init_nodes_from (fun _ => false) i roles).1.take
          (init_nodes_from fails i roles).1.length
  | [], _ => rfl
  | (name, role) :: rest, i => by
    cases h : fails i with
    | true => simp [init_nodes_from, CubeNode.init_node, h]
    | false =>
      have ih := init_from_take fails rest (i + 1)
      simp only [init_nodes_from, CubeNode.init_node, h]
      simpa using ih

/-- When the loop reports no exception, it has built exactly the
no-failure node map. -/
theorem init_from_ok_eq (fails : Nat → Bool) :
    ∀ (roles : List (String × String)) (i : Nat),
      (init_nodes_from fails i roles).2 = false →
      (init_nodes_from fails i roles).1 =
        (init_nodes_from (fun _ => false) i roles).1
  | [], _ => fun _ => rfl
  | (name, role) :: rest, i => by
    cases h : fails i with
    | true => simp [init_nodes_from, CubeNode.init_node, h]
    | false =>
      intro hok
      have hok' : (init_nodes_from fails (i + 1) rest).2 = false := by
        simpa [init_nodes_from, CubeNode.init_node, h] using hok
      simp [init_nodes_from, CubeNode.init_node, h,
        init_from_ok_eq fails rest (i + 1) hok']

/-- If some entry of the remaining role table fails, the loop raises
and stores strictly fewer nodes than there are entries. -/
theorem init_from_fail (fails : Nat → Bool) :
    ∀ (roles : List (String × String)) (i p : Nat),
      p < roles.length → fails (i + p) = true →
      (init_nodes_from fails i roles).2 = true ∧
        (init_nodes_from fails i roles).1.length < roles.length
  | [], _, p, hp, _ => absurd hp (Nat.not_lt_zero p)
  | (name, role) :: rest, i, p, hp, hf => by
    cases h : fails i with
    | true =>
      constructor
      · simp [init_nodes_from, CubeNode.init_node, h]
      · simp [init_nodes_from, CubeNode.init_node, h]
    | false =>
      cases p with
      | zero => rw [Nat.add_zero] at hf; exact absurd hf (by simp [h])
      | succ q =>
        have hq : q < rest.length := Nat.lt_of_succ_lt_succ hp
        have hf' : fails (i + 1 + q) = true := by
          rw [Nat.add_right_comm]; exact hf
        have ih := init_from_fail fails rest (i + 1) q hq hf'
        constructor
        · simp [init_nodes_from, CubeNode.init_node, h, ih.1]
        · simpa [init_nodes_from, CubeNode.init_node, h,
            Nat.succ_lt_succ_iff] using ih.2

/-- Every node the initialization loop stores has an empty dependency
list. -/
theorem init_from_deps (fails : Nat → Bool) :
    ∀ (roles : List (String × String)) (i : Nat),
      ∀ p ∈ (init_nodes_from fails i roles).1, p.2.dependencies = []
  | [], _ => by intro p hp; simp [init_nodes_from] at hp
  | (name, role) :: rest, i => by
    intro p hp
    cases h : fails i with
    | true => simp [init_nodes_from, CubeNode.init_node, h] at hp
    | false =>
      rw [init_nodes_from] at hp
      simp only [CubeNode.init_node, h, if_false, Bool.false_eq_true,
        ite_false, List.mem_cons] at hp
      cases hp with
      | inl he => rw [he]; rfl
      | inr hm => exact init_from_deps fails rest (i + 1) p hm

/-- Every node the initialization loop stores has status `"active"`:
a failing node is never stored. -/
theorem init_from_status (fails : Nat → Bool) :
    ∀ (roles : List (String × String)) (i : Nat),
      ∀ p ∈ (init_nodes_from fails i roles).1, p.2.status = "active"
  | [], _ => by intro p hp; simp [init_nodes_from] at hp
  | (name, role) :: rest, i => by
    intro p hp
    cases h : fails i with
    | true => simp [init_nodes_from, CubeNode.init_node, h] at hp
    | false =>
      rw [init_nodes_from] at hp
      simp only [CubeNode.init_node, h, if_false, Bool.false_eq_true,
        ite_false, List.mem_cons] at hp
      cases hp with
      | inl he => rw [he]
      | inr hm => exact init_from_status fails rest (i + 1) p hm

/-- Submissions land on the queue tail in submission order. -/
theorem submit_all_eq (active : List (Nat × CubeNode)) :
    ∀ (subs : List (Nat × String × Nat)) (queue : List TrainingTask),
      submit_all active queue subs =
        queue ++ subs.map (fun s => ⟨s.1, s.2.1, s.2.2⟩)
  | [], queue => by simp [submit_all]
  | (node_id, data, now) :: rest, queue => by
    simp [submit_all, add_training_data,
      submit_all_eq active rest (queue ++ [⟨node_id, data, now⟩])]

/-- A sweep in which no node's refresh raises refreshes every node. -/
theorem monitor_sweep_all (fails : Nat → Bool) :
    ∀ nodes : List Nat, (∀ n ∈ nodes, fails n = false) →
      (monitor_sweep fails nodes).1 = nodes
  | [], _ => rfl
  | n :: rest, h => by
    have hn : fails n = false := h n (List.mem_cons_self n rest)
    simp [monitor_sweep, hn,
      monitor_sweep_all fails rest (fun m hm => h m (List.mem_cons_of_mem n hm))]

/-- The clients a broadcast delivers to are exactly those whose send
does not raise, in iteration order. -/
theorem broadcast_message_fst (send_fails : Nat → Bool) :
    ∀ conns : List Nat,
      (broadcast_message conns send_fails).1 =
        conns.filter (fun c => ! send_fails c)
  | [] => rfl
  | c :: rest => by
    cases h : send_fails c <;>
      simp [broadcast_message, h, List.filter,
        broadcast_message_fst send_fails rest]

/-- A broadcast leaves the registered-connection set unchanged. -/
theorem broadcast_message_snd (send_fails : Nat → Bool) :
    ∀ conns : List Nat, (broadcast_message conns send_fails).2 = conns
  | [] => rfl
  | c :: rest => by
    cases h : send_fails c <;>
      simp [broadcast_message, h, broadcast_message_snd send_fails rest]

/-! ## Claims -/

/-- C1 counterexample: the initialization loop of
`CubeManager._initialize_nodes` has no try/except, so when node 1's
`initialize` raises, the exception propagates at once: the manager does
NOT continue with the remaining eight nodes and the resulting node map
is empty, not the claimed nine entries. -/
theorem C1_counterexample :
    (init_nodes (fun i => decide (i = 1))).2 = true ∧
    (init_nodes (fun i => decide (i = 1))).1 = [] := by
  decide

/-- C1 (amended): initialization creates nodes in the declared fixed
order (ids 1..9, the eight vertex roles in document order, then the
coordinator), and when no node's `initialize` raises the result is
exactly nine distinct node ids with roles matching the declared list;
but a `NodeInitError` is NOT tolerated: the loop aborts at the first
failing node, keeping only the nodes initialized before it (always a
take-of-the-full-run, i.e. an order-respecting truncation), and the
exception propagates out of `_initialize_nodes`. -/
theorem C1_init_order_amended (fails : Nat → Bool) :
    (init_nodes fails).1 =
      (init_nodes (fun _ => false)).1.take (init_nodes fails).1.length ∧
    ((init_nodes fails).2 = false →
      (init_nodes fails).1 = (init_nodes (fun _ => false)).1) ∧
    (init_nodes (fun _ => false)).1.map Prod.fst =
      [1, 2, 3, 4, 5, 6, 7, 8, 9] ∧
    (init_nodes (fun _ => false)).1.map (fun p => (p.2.name, p.2.role)) =
      node_roles ∧
    (∀ i, 1 ≤ i → i ≤ 9 → fails i = true →
      (init_nodes fails).2 = true ∧ (init_nodes fails).1.length < 9) := by
  refine ⟨init_from_take fails node_roles 1,
    init_from_ok_eq fails node_roles 1, by decide, by decide, ?_⟩
  intro i h1 h9 hf
  have hp : i - 1 < node_roles.length := by
    simp only [node_roles, List.length]; omega
  have hi : 1 + (i - 1) = i := by omega
  have := init_from_fail fails node_roles 1 (i - 1) hp (by rw [hi]; exact hf)
  exact ⟨this.1, by simpa [node_roles] using this.2⟩

/-- C1 witness: with node 9 (the coordinator) failing, the run raises
and fewer than nine nodes are stored. -/
theorem C1_init_order_amended_witness :
    (init_nodes (fun i => decide (i = 9))).2 = true ∧
    (init_nodes (fun i => decide (i = 9))).1.length < 9 :=
  (C1_init_order_amended (fun i => decide (i = 9))).2.2.2.2 9
    (by decide) (by decide) (by decide)

/-- C2 counterexample: over known nodes `[1, 2, 3]`, when node 2's
dependency refresh raises, the sweep's for-loop is aborted by the
exception (the try/except sits outside the for-loop): node 3 of the
same sweep is never refreshed, refuting "the loop still invokes the
dependency refresh on every remaining node of that same sweep". -/
theorem C2_counterexample :
    (monitor_sweep (fun n => decide (n = 2)) [1, 2, 3]).1 = [1, 2] ∧
    3 ∉ (monitor_sweep (fun n => decide (n = 2)) [1, 2, 3]).1 ∧
    (monitor_sweep (fun n => decide (n = 2)) [1, 2, 3]).2 = true := by
  decide

/-- C2 (amended): an exception raised while refreshing one node's
dependencies is caught — but at the sweep boundary, not per node: the
refreshed nodes of a sweep are exactly those up to and including the
first failing one (all of them when none fails), an exception is caught
iff some node of the sweep fails, and the monitor loop itself is never
terminated by it — it always proceeds to the next sweep. -/
theorem C2_monitor_sweep_amended (fails : Nat → Bool) (nodes : List Nat)
    (floop : Nat → Nat → Bool) (k : Nat) :
    (monitor_sweep fails nodes).1 =
      nodes.takeWhile (fun n => ! fails n) ++
        (nodes.dropWhile (fun n => ! fails n)).take 1 ∧
    (monitor_sweep fails nodes).2 = nodes.any fails ∧
    ((∀ n ∈ nodes, fails n = false) → (monitor_sweep fails nodes).1 = nodes) ∧
    (monitor_loop floop nodes k).length = k := by
  have h := monitor_sweep_eq fails nodes
  exact ⟨by rw [h], by rw [h], monitor_sweep_all fails nodes,
    monitor_loop_length nodes k floop⟩

/-- C2 witness: the amended statement at the counterexample's sweep and
at a failure-free sweep. -/
theorem C2_monitor_sweep_amended_witness :
    (monitor_sweep (fun n => decide (n = 2)) [1, 2, 3]).2 =
      ([1, 2, 3].any fun n => decide (n = 2)) ∧
    (monitor_sweep (fun _ => false) [1, 2, 3]).1 = [1, 2, 3] :=
  ⟨(C2_monitor_sweep_amended (fun n => decide (n = 2)) [1, 2, 3]
      (fun _ _ => false) 0).2.1,
   (C2_monitor_sweep_amended (fun _ => false) [1, 2, 3]
      (fun _ _ => false) 0).2.2.1 (by decide)⟩

/-- C3 counterexample: a `peer_discovery` message whose `peer_id` field
is present but falsy (the empty string), and one with no `peer_id`
field at all, both get NO reply — `handle_peer_discovery` only answers
under `if peer_id:`, refuting "whatever the value of its peer_id
field". -/
theorem C3_counterexample :
    process_message "iid"
      [("type", JVal.str "peer_discovery"), ("peer_id", JVal.str "")] = [] ∧
    process_message "iid" [("type", JVal.str "peer_discovery")] = [] := by
  decide

/-- C3 (amended): for every inbound message of type `peer_discovery`,
the handler replies `peer_ack` carrying this instance's fixed
identifier exactly when the `peer_id` field is present and truthy;
when `peer_id` is absent or falsy no reply is sent. -/
theorem C3_peer_ack_amended (instance_id : String)
    (data : List (String × JVal))
    (h : jget data "type" = some (JVal.str "peer_discovery")) :
    process_message instance_id data =
      if opt_truthy (jget data "peer_id") then [OutMsg.peer_ack instance_id]
      else [] := by
  unfold process_message
  rw [h]
  cases hp : jget data "peer_id" with
  | none => simp [handle_peer_discovery, hp, opt_truthy]
  | some v => simp [handle_peer_discovery, hp, opt_truthy]

/-- C3 witness: a discovery message with a truthy `peer_id` gets the
`peer_ack` reply with the instance id. -/
theorem C3_peer_ack_amended_witness :
    process_message "A"
      [("type", JVal.str "peer_discovery"), ("peer_id", JVal.str "X")] =
      [OutMsg.peer_ack "A"] := by
  rw [C3_peer_ack_amended "A"
    [("type", JVal.str "peer_discovery"), ("peer_id", JVal.str "X")]
    (by decide)]
  decide

/-- C4 (confirmed): `put` appends submissions to the FIFO queue in
submission order, and the single consumer loop dispatches to
`process_training_data` in exactly that order — the invocation sequence
is the submission sequence restricted to items whose target exists, so
when every target exists, handler invocation order equals submission
order with no reordering.  (The consumer is the one sequential loop of
`_process_training_queue`; the embedding has no interleaving, matching
the single-consumer discipline.) -/
theorem C4_fifo_dispatch (active : List (Nat × CubeNode))
    (subs : List (Nat × String × Nat)) :
    submit_all active [] subs =
      subs.map (fun s => ⟨s.1, s.2.1, s.2.2⟩) ∧
    process_training_queue active (submit_all active [] subs) =
      ((submit_all active [] subs).filter
        (fun t => (get_node active t.node_id).isSome)).map
        (fun t => (t.node_id, t.data)) ∧
    ((∀ s ∈ subs, (get_node active s.1).isSome) →
      process_training_queue active (submit_all active [] subs) =
        subs.map (fun s => (s.1, s.2.1))) := by
  have hs := submit_all_eq active subs []
  simp only [List.nil_append] at hs
  refine ⟨hs, process_training_queue_eq active _, fun hall => ?_⟩
  rw [process_training_queue_eq active _, hs]
  rw [List.filter_eq_self.mpr ?_, List.map_map]
  · rfl
  · intro t ht
    rcases List.mem_map.mp ht with ⟨s, hsmem, hrw⟩
    rw [← hrw]
    exact hall s hsmem

/-- C4 witness: two submissions to existing nodes are dispatched in
submission order. -/
theorem C4_fifo_dispatch_witness :
    process_training_queue [(1, CubeNode.mk_node 1 "vertex_1" "SCADA")]
      (submit_all [(1, CubeNode.mk_node 1 "vertex_1" "SCADA")] []
        [(1, "a", 0), (1, "b", 1)]) = [(1, "a"), (1, "b")] :=
  (C4_fifo_dispatch [(1, CubeNode.mk_node 1 "vertex_1" "SCADA")]
    [(1, "a", 0), (1, "b", 1)]).2.2 (by decide)

/-- C5 (confirmed): `add_training_data` never raises to the submitter
(`Except.ok` always), enqueues the item stamped with the clock value
read at submission time, and never consults the node map (the result is
identical under any node map, i.e. no existence validation at
submission); when the target id is absent at consumption time the
consumer drops the item: it invokes no handler for it and the queue
behaves as if the item were never there (at-most-once, no redelivery).
-/
theorem C5_submit_semantics (active active2 : List (Nat × CubeNode))
    (queue : List TrainingTask) (node_id : Nat) (data : String)
    (now : Nat) :
    add_training_data active queue node_id data now =
      Except.ok (queue ++ [⟨node_id, data, now⟩]) ∧
    add_training_data active queue node_id data now =
      add_training_data active2 queue node_id data now ∧
    (get_node active node_id = none →
      process_training_queue active (queue ++ [⟨node_id, data, now⟩]) =
        process_training_queue active queue) := by
  refine ⟨rfl, rfl, fun habs => ?_⟩
  rw [process_training_queue_eq active _, process_training_queue_eq active _,
    List.filter_append]
  simp [habs]

/-- C5 witness: submitting to the unknown id 5 over an empty node map
returns ok and the item is consumed with no handler invocation. -/
theorem C5_submit_semantics_witness :
    get_node [] 5 = none ∧
    add_training_data [] [] 5 "d" 0 =
      Except.ok ([] ++ [⟨5, "d", 0⟩]) ∧
    process_training_queue [] ([] ++ [⟨5, "d", 0⟩]) =
      process_training_queue [] [] :=
  ⟨rfl, (C5_submit_semantics [] [] [] 5 "d" 0).1,
    (C5_submit_semantics [] [] [] 5 "d" 0).2.2 rfl⟩

/-- C6 (confirmed): `get_node_status` fails exactly when the id is
absent from the node map, and for a present id returns the stored
node's snapshot — same `node_id`, `name`, `role`, lifecycle status and
dependency list, stamped with the clock value read at call time. -/
theorem C6_node_status (active : List (Nat × CubeNode)) (node_id : Nat)
    (now : Nat) :
    ((∃ e, get_node_status active node_id now = Except.error e) ↔
      get_node active node_id = none) ∧
    (∀ n, get_node active node_id = some n →
      get_node_status active node_id now =
        Except.ok ⟨n.node_id, n.name, n.role, n.status, n.dependencies,
          now⟩) := by
  cases h : get_node active node_id with
  | none => simp [get_node_status, h, CubeNode.get_status]
  | some n => simp [get_node_status, h, CubeNode.get_status]

/-- C6 witness: a known id returns its stored snapshot; specializing
the theorem at a one-node map. -/
theorem C6_node_status_witness :
    get_node [(1, CubeNode.mk_node 1 "vertex_1" "SCADA")] 1 =
      some (CubeNode.mk_node 1 "vertex_1" "SCADA") ∧
    get_node_status [(1, CubeNode.mk_node 1 "vertex_1" "SCADA")] 1 7 =
      Except.ok ⟨1, "vertex_1", "SCADA", "initializing", [], 7⟩ :=
  ⟨by decide,
   (C6_node_status [(1, CubeNode.mk_node 1 "vertex_1" "SCADA")] 1 7).2
     (CubeNode.mk_node 1 "vertex_1" "SCADA") (by decide)⟩

/-- C7 (confirmed): a broadcast attempts every currently registered
client in order; a client whose send raises is skipped individually —
every client whose send does not raise receives the message — and the
registered set is exactly the same after the call (no unregistration
inside `broadcast_message`). -/
theorem C7_broadcast_isolation (conns : List Nat)
    (send_fails : Nat → Bool) :
    (broadcast_message conns send_fails).2 = conns ∧
    (broadcast_message conns send_fails).1 =
      conns.filter (fun c => ! send_fails c) ∧
    (∀ c ∈ conns, send_fails c = false →
      c ∈ (broadcast_message conns send_fails).1) := by
  refine ⟨broadcast_message_snd send_fails conns,
    broadcast_message_fst send_fails conns, fun c hc hok => ?_⟩
  rw [broadcast_message_fst send_fails conns]
  exact List.mem_filter.mpr ⟨hc, by simp [hok]⟩

/-- C7 witness: three registered clients, client 2's send fails — the
other two still receive the message and the set keeps all three. -/
theorem C7_broadcast_isolation_witness :
    (broadcast_message [1, 2, 3] (fun c => decide (c = 2))).2 =
      [1, 2, 3] ∧
    1 ∈ (broadcast_message [1, 2, 3] (fun c => decide (c = 2))).1 ∧
    3 ∈ (broadcast_message [1, 2, 3] (fun c => decide (c = 2))).1 :=
  ⟨(C7_broadcast_isolation [1, 2, 3] (fun c => decide (c = 2))).1,
   (C7_broadcast_isolation [1, 2, 3] (fun c => decide (c = 2))).2.2 1
     (by decide) (by decide),
   (C7_broadcast_isolation [1, 2, 3] (fun c => decide (c = 2))).2.2 3
     (by decide) (by decide)⟩

/-- C8 (confirmed): for a node whose role is neither `"TRAINING"` nor
`"MONITORING"`, `process_training_data` falls through the dispatch
chain: it completes without error, invokes no handler, and leaves the
node unchanged. -/
theorem C8_unknown_role_noop (n : CubeNode) (data : String)
    (h1 : n.role ≠ "TRAINING") (h2 : n.role ≠ "MONITORING") :
    n.process_training_data data = (n, []) := by
  simp [CubeNode.process_training_data, h1, h2]

/-- C8 witness: the SCADA role (declared but not in the dispatch table)
is a no-op. -/
theorem C8_unknown_role_noop_witness :
    (CubeNode.mk_node 1 "vertex_1" "SCADA").process_training_data "d" =
      (CubeNode.mk_node 1 "vertex_1" "SCADA", []) :=
  C8_unknown_role_noop (CubeNode.mk_node 1 "vertex_1" "SCADA") "d"
    (by decide) (by decide)

/-- C9 (confirmed): the dependency list is empty at creation and no
operation ever touches it — `check_dependencies` is the identity,
`initialize` and `process_training_data` leave it unchanged, the status
snapshot reports it verbatim, and every node the manager's
initialization loop stores (under any failure pattern) carries the
empty dependency list. -/
theorem C9_dependencies_empty (i now : Nat) (name role data : String)
    (n : CubeNode) (b : Bool) (fails : Nat → Bool) :
    (CubeNode.mk_node i name role).dependencies = [] ∧
    n.check_dependencies = n ∧
    ((n.init_node b).1).dependencies = n.dependencies ∧
    ((n.process_training_data data).1).dependencies = n.dependencies ∧
    (n.get_status now).dependencies = n.dependencies ∧
    (∀ p ∈ (init_nodes fails).1, p.2.dependencies = []) := by
  refine ⟨rfl, rfl, by cases b <;> rfl, ?_, rfl,
    init_from_deps fails node_roles 1⟩
  simp only [CubeNode.process_training_data]
  split
  · rfl
  · split <;> rfl

/-- C9 witness: the first stored node of a failure-free initialization
is in the map and has no dependencies. -/
theorem C9_dependencies_empty_witness :
    ((1 : Nat), (⟨1, "vertex_1", "SCADA", [], "active"⟩ : CubeNode)) ∈
      (init_nodes (fun _ => false)).1 ∧
    (⟨1, "vertex_1", "SCADA", [], "active"⟩ : CubeNode).dependencies =
      [] :=
  ⟨by decide,
   (C9_dependencies_empty 0 0 "" "" "" (CubeNode.mk_node 0 "" "") false
     (fun _ => false)).2.2.2.2.2
     (1, ⟨1, "vertex_1", "SCADA", [], "active"⟩) (by decide)⟩

/-- C10 (confirmed): the try body of `CubeNode.initialize` is a plain
assignment plus a log call and cannot raise, so every execution is
`init_node n false`: it sets status `"active"` and does not raise — the
`"error"` branch is unreachable in this implementation.  Consequently
every node the initialization loop stores has status `"active"` (nine
of them in the failure-free run), creation sets `"initializing"`, and
no other operation (`check_dependencies`, `process_training_data`)
changes the status at all. -/
theorem C10_error_unreachable (n : CubeNode) (i : Nat)
    (name role data : String) (fails : Nat → Bool) :
    (n.init_node false).1.status = "active" ∧
    (n.init_node false).2 = false ∧
    (CubeNode.mk_node i name role).status = "initializing" ∧
    n.check_dependencies.status = n.status ∧
    ((n.process_training_data data).1).status = n.status ∧
    (∀ p ∈ (init_nodes fails).1, p.2.status = "active") ∧
    (init_nodes (fun _ => false)).1.length = 9 := by
  refine ⟨rfl, rfl, rfl, rfl, ?_, init_from_status fails node_roles 1,
    by decide⟩
  simp only [CubeNode.process_training_data]
  split
  · rfl
  · split <;> rfl

/-- C10 witness: the coordinator node of the failure-free run is stored
with status `"active"`. -/
theorem C10_error_unreachable_witness :
    ((9 : Nat), (⟨9, "central", "COORDINATOR", [], "active"⟩ : CubeNode)) ∈
      (init_nodes (fun _ => false)).1 ∧
    (⟨9, "central", "COORDINATOR", [], "active"⟩ : CubeNode).status =
      "active" :=
  ⟨by decide,
   (C10_error_unreachable (CubeNode.mk_node 0 "" "") 0 "" "" ""
     (fun _ => false)).2.2.2.2.2.1
     (9, ⟨9, "central", "COORDINATOR", [], "active"⟩) (by decide)⟩

end KCube
